import Mathlib

/-!
# Wallet connection and network negotiation (scripts/web3.js)

A shallow embedding of the connection state machine of `scripts/web3.js`:
provider detection, the connect handshake, network check / switch / add and the
`accountsChanged` handler.

Modelling conventions.

* An `async` function is run to completion: every `await` is answered at once by
  the provider behaviour carried by the environment (`Provider`), and no
  notification is delivered in the middle of a call.
* A JavaScript function either returns a value or throws; this is
  `Except Fault α`.  State mutations and effects made before a throw persist.
* Calls to the page collaborators (`showErrorMessage`, `showSuccessMessage`,
  `updateWalletDisplay`, `checkUserVotingStatus`, `confirm`) and provider
  requests are recorded, in order, in an effect log.  The collaborators are
  taken not to throw (the page elements read by `updateWalletDisplay` exist).
  `console.log` / `console.error` calls are not recorded.
* A provider fault is an error object with an optional numeric `code` and a
  `message`.
-/

namespace Web3

/-! ## JavaScript values -/

/-- The JavaScript values that the detection flag can take. -/
inductive JsVal where
  | undefined
  | null
  | bool (b : Bool)
  | num (n : Int)
  | str (s : String)
  deriving DecidableEq, Repr

/-- JavaScript truthiness (`ToBoolean`). -/
def JsVal.truthy : JsVal → Bool
  | .undefined => false
  | .null => false
  | .bool b => b
  | .num n => n != 0
  | .str s => s != ""

/-- The `typeof` operator. -/
def JsVal.typeof : JsVal → String
  | .undefined => "undefined"
  | .null => "object"
  | .bool _ => "boolean"
  | .num _ => "number"
  | .str _ => "string"

/-! ## Errors, provider, environment -/

/-- An error object: `error.code` (absent for a plain `Error`) and `error.message`. -/
structure Fault where
  code : Option Int
  message : String
  deriving DecidableEq, Repr

/-- The value built by `new Error(msg)`: it has no `code`. -/
def Fault.ofMessage (msg : String) : Fault := ⟨none, msg⟩

/-- The `nativeCurrency` member of the `wallet_addEthereumChain` parameter. -/
structure NativeCurrency where
  name : String
  symbol : String
  decimals : Nat
  deriving DecidableEq, Repr

/-- The parameter object of `wallet_addEthereumChain`. -/
structure ChainParams where
  chainId : String
  chainName : String
  nativeCurrency : NativeCurrency
  rpcUrls : List String
  blockExplorerUrls : List String
  deriving DecidableEq, Repr

/-- The argument of a `window.ethereum.request({ method, params })` call. -/
inductive Request where
  | ethRequestAccounts
  | ethChainId
  | walletSwitchEthereumChain (chainId : String)
  | walletAddEthereumChain (params : ChainParams)
  deriving DecidableEq, Repr

/-- The injected `window.ethereum` object: its `isMetaMask` property (`undefined`
when the property is missing) and how it answers each request of one call. -/
structure Provider where
  isMetaMask : JsVal
  requestAccounts : Except Fault (Option (List String))
  chainId : Except Fault String
  switchChain : Except Fault Unit
  addChain : Except Fault Unit

/-- The page environment: `window.ethereum` (`none` when nothing is injected) and
the answer the user gives to `confirm(...)`. -/
structure Env where
  ethereum : Option Provider
  confirm : Bool

/-- Observable effects, in the order they happen. -/
inductive Effect where
  | request (r : Request)
  | confirm (msg : String)
  | showErrorMessage (msg : String)
  | showSuccessMessage (msg : String)
  | updateWalletDisplay (walletInfoShown : Bool)
  | checkUserVotingStatus
  deriving DecidableEq, Repr

/-- The `AppState` fields that `scripts/web3.js` reads and writes. -/
structure AppState where
  isWalletConnected : Bool
  currentAccount : Option String
  currentNetwork : Option String
  deriving DecidableEq, Repr

/-- Modelled from the spec: the declaration of `AppState` is not part of
`scripts/web3.js`; the session starts Disconnected, with no account and no
network. -/
def AppState.initial : AppState := ⟨false, none, none⟩

/-- The outcome of running a function: what it returned or threw, the state it
left and the effects it produced. -/
structure Run (α : Type) where
  result : Except Fault α
  state : AppState
  effects : List Effect

/-- The `TypeError` raised by `window.ethereum.request` when `window.ethereum` is
`undefined`. -/
def typeErrorNoProvider : Fault :=
  Fault.ofMessage "Cannot read properties of undefined (reading 'request')"

/-- One `await window.ethereum.request(r)`: without a provider the member access
throws and nothing is sent; otherwise the request is sent and answered. -/
def ethereumRequest {α : Type} (eth : Option Provider) (r : Request)
    (answer : Provider → Except Fault α) : Except Fault α × List Effect :=
  match eth with
  | none => (.error typeErrorNoProvider, [])
  | some p => (answer p, [.request r])

/-! ## The functions of `scripts/web3.js` -/

/-- Source `detectMetaMask`: `return window.ethereum && window.ethereum.isMetaMask;`.
The `&&` operator yields its left operand when that is falsy, else its right
operand. -/
def detectMetaMask (env : Env) : JsVal :=
  match env.ethereum with
  | none => .undefined
  | some p => p.isMetaMask

/-- Source `updateWalletDisplay`: the branch taken depends on
`AppState.isWalletConnected`. -/
def updateWalletDisplay (s : AppState) : List Effect :=
  [.updateWalletDisplay s.isWalletConnected]

/-- Source `handleWalletConnection`.  Its `account` argument is only logged; the
display is refreshed from `AppState`, which is why the state is passed here. -/
def handleWalletConnection (s : AppState) : List Effect :=
  updateWalletDisplay s ++
    [.checkUserVotingStatus, .showSuccessMessage "Wallet connected successfully!"]

/-- The object literal passed to `wallet_addEthereumChain` in `addSepoliaNetwork`. -/
def sepoliaParams : ChainParams where
  chainId := "0xaa36a7"
  chainName := "Sepolia Testnet"
  nativeCurrency := ⟨"Sepolia ETH", "SEP", 18⟩
  rpcUrls := ["https://sepolia.infura.io/v3/"]
  blockExplorerUrls := ["https://sepolia.etherscan.io/"]

/-- Source `addSepoliaNetwork`: on failure the error is rethrown. -/
def addSepoliaNetwork (env : Env) (s : AppState) : Run Unit :=
  match ethereumRequest env.ethereum (.walletAddEthereumChain sepoliaParams)
      (fun p => p.addChain) with
  | (.ok _, fx) =>
    ⟨.ok (), { s with currentNetwork := some "Sepolia Testnet" },
      fx ++ [.showSuccessMessage "Sepolia testnet added to MetaMask!"]⟩
  | (.error e, fx) => ⟨.error e, s, fx⟩

/-- Source `switchToSepolia`: every error is caught inside the function. -/
def switchToSepolia (env : Env) (s : AppState) : Run Unit :=
  match ethereumRequest env.ethereum (.walletSwitchEthereumChain "0xaa36a7")
      (fun p => p.switchChain) with
  | (.ok _, fx) =>
    ⟨.ok (), { s with currentNetwork := some "Sepolia Testnet" },
      fx ++ [.showSuccessMessage "Switched to Sepolia testnet successfully!"]⟩
  | (.error e, fx) =>
    if e.code = some 4902 then
      let r := addSepoliaNetwork env s
      match r.result with
      | .ok _ => ⟨.ok (), r.state, fx ++ r.effects⟩
      | .error _ =>
        ⟨.ok (), r.state, fx ++ r.effects ++
          [.showErrorMessage
            "Failed to add Sepolia network. Please add it manually in MetaMask."]⟩
    else
      ⟨.ok (), s, fx ++
        [.showErrorMessage
          "Failed to switch network. Please switch manually in MetaMask."]⟩

/-- The text of the `confirm` dialog of `checkNetwork`. -/
def switchPrompt : String :=
  "You are not connected to Sepolia testnet. " ++ "Would you like to switch networks?"

/-- Source `checkNetwork`.  The returned value is `true`, `false`, or nothing
(`none`, JavaScript `undefined`) on the path that ends after `switchToSepolia`. -/
def checkNetwork (env : Env) (s : AppState) : Run (Option Bool) :=
  match ethereumRequest env.ethereum .ethChainId (fun p => p.chainId) with
  | (.ok chainId, fx) =>
    if chainId = "0xaa36a7" then
      ⟨.ok (some true), { s with currentNetwork := some "Sepolia Testnet" }, fx⟩
    else if env.confirm then
      let r := switchToSepolia env s
      match r.result with
      | .ok _ => ⟨.ok none, r.state, fx ++ [.confirm switchPrompt] ++ r.effects⟩
      | .error _ =>
        ⟨.ok (some false), r.state, fx ++ [.confirm switchPrompt] ++ r.effects ++
          [.showErrorMessage "Failed to check network. Please try again."]⟩
    else
      ⟨.ok (some false), s, fx ++ [.confirm switchPrompt] ++
        [.showErrorMessage "Please switch to Sepolia testnet to use this app."]⟩
  | (.error _, fx) =>
    ⟨.ok (some false), s, fx ++
      [.showErrorMessage "Failed to check network. Please try again."]⟩

/-- The message shown by the `catch` block of `connectWallet`. -/
def connectErrorMessage (e : Fault) : String :=
  if e.code = some 4001 then
    "Connection rejected. Please approve the connection in MetaMask."
  else if e.code = some (-32002) then
    "Connection request pending. Please check MetaMask."
  else if e.message = "" then
    "Failed to connect wallet. Please try again."
  else e.message

/-- The `catch` block of `connectWallet`: report and return `null`. -/
def connectWalletCatch (e : Fault) (s : AppState) (fx : List Effect) :
    Run (Option String) :=
  ⟨.ok none, s, fx ++ [.showErrorMessage (connectErrorMessage e)]⟩

/-- Source `connectWallet`.  The returned value is the account, or `null`
(`none`). -/
def connectWallet (env : Env) (s : AppState) : Run (Option String) :=
  if !(detectMetaMask env).truthy then
    connectWalletCatch
      (Fault.ofMessage "MetaMask not detected. Please install MetaMask extension.") s []
  else
    match ethereumRequest env.ethereum .ethRequestAccounts
        (fun p => p.requestAccounts) with
    | (.error e, fx) => connectWalletCatch e s fx
    | (.ok none, fx) | (.ok (some []), fx) =>
      connectWalletCatch (Fault.ofMessage "No accounts found. Please check MetaMask.") s fx
    | (.ok (some (account :: _)), fx) =>
      let s1 : AppState :=
        { s with isWalletConnected := true, currentAccount := some account }
      let fx1 := fx ++ handleWalletConnection s1
      let r := checkNetwork env s1
      match r.result with
      | .ok _ => ⟨.ok (some account), r.state, fx1 ++ r.effects⟩
      | .error e => connectWalletCatch e r.state (fx1 ++ r.effects)

/-- The `accountsChanged` listener. -/
def onAccountsChanged (accounts : List String) (s : AppState) :
    AppState × List Effect :=
  match accounts with
  | [] =>
    let s1 : AppState :=
      { s with isWalletConnected := false, currentAccount := none,
               currentNetwork := none }
    (s1, updateWalletDisplay s1 ++
      [.showErrorMessage "Wallet disconnected. Please reconnect to continue voting."])
  | newAccount :: _ =>
    let s1 : AppState := { s with currentAccount := some newAccount }
    (s1, handleWalletConnection s1)

/-- Test 1 of `validateModule3`: passes when `typeof detectMetaMask()` is
`'boolean'`. -/
def validateModule3Test1 (env : Env) : Bool :=
  (detectMetaMask env).typeof == "boolean"

/-! ## Derived notions used in the statements -/

/-- The session invariant: connected exactly when an account is recorded. -/
def Consistent (s : AppState) : Prop :=
  s.isWalletConnected = true ↔ s.currentAccount ≠ none

/-- States reachable from the initial state by `connectWallet` calls (in any
environment) and `accountsChanged` notifications (with any payload). -/
inductive Reachable : AppState → Prop where
  | init : Reachable AppState.initial
  | connect (env : Env) {s : AppState} :
      Reachable s → Reachable (connectWallet env s).state
  | accountsChanged (accounts : List String) {s : AppState} :
      Reachable s → Reachable (onAccountsChanged accounts s).1

/-- The provider requests found in an effect log. -/
def requestsOf : List Effect → List Request
  | [] => []
  | .request r :: rest => r :: requestsOf rest
  | _ :: rest => requestsOf rest

/-- The parameters of the `wallet_addEthereumChain` requests of an effect log. -/
def addChainRequests : List Effect → List ChainParams
  | [] => []
  | .request (.walletAddEthereumChain d) :: rest => d :: addChainRequests rest
  | _ :: rest => addChainRequests rest

/-- The `wallet_switchEthereumChain` requests of an effect log. -/
def switchChainRequests : List Effect → List String
  | [] => []
  | .request (.walletSwitchEthereumChain c) :: rest => c :: switchChainRequests rest
  | _ :: rest => switchChainRequests rest

/-- The `confirm` prompts of an effect log. -/
def confirmPrompts : List Effect → List String
  | [] => []
  | .confirm m :: rest => m :: confirmPrompts rest
  | _ :: rest => confirmPrompts rest

/-- The `showErrorMessage` calls of an effect log. -/
def errorMessages : List Effect → List String
  | [] => []
  | .showErrorMessage m :: rest => m :: errorMessages rest
  | _ :: rest => errorMessages rest

/-- Letter-case normalisation of a chain identifier. -/
def lowerCase (s : String) : List Char := s.toList.map Char.toLower

/-! ## Concrete environments used in the examples -/

/-- A fault with the user-declined code. -/
def userRejected : Fault := ⟨some 4001, "User rejected the request."⟩

/-- A fault with the unknown-chain code. -/
def unknownChain : Fault := ⟨some 4902, "Unrecognized chain ID."⟩

/-- A MetaMask provider that grants one account and sits on main net; the switch
request is declined by the user. -/
def mainnetProvider : Provider :=
  ⟨.bool true, .ok (some ["0xAbc"]), .ok "0x1", .error userRejected, .ok ()⟩

/-- A MetaMask provider already on Sepolia. -/
def sepoliaProvider : Provider :=
  ⟨.bool true, .ok (some ["0xAbc"]), .ok "0xaa36a7", .ok (), .ok ()⟩

/-- A MetaMask provider that reports the Sepolia chain id in upper case. -/
def upperCaseProvider : Provider :=
  ⟨.bool true, .ok (some ["0xAbc"]), .ok "0xAA36A7", .ok (), .ok ()⟩

/-- A MetaMask provider that does not know Sepolia and refuses to add it. -/
def unknownChainProvider : Provider :=
  ⟨.bool true, .ok (some ["0xAbc"]), .ok "0x1", .error unknownChain, .error userRejected⟩

/-- A MetaMask provider whose account request is declined by the user. -/
def decliningProvider : Provider :=
  ⟨.bool true, .error userRejected, .ok "0xaa36a7", .ok (), .ok ()⟩

/-- A connected session whose network was recorded as Sepolia. -/
def verifiedSession : AppState := ⟨true, some "0xAbc", some "Sepolia Testnet"⟩

/-! ## Auxiliary lemmas -/

theorem addSepoliaNetwork_account (env : Env) (s : AppState) :
    (addSepoliaNetwork env s).state.isWalletConnected = s.isWalletConnected ∧
      (addSepoliaNetwork env s).state.currentAccount = s.currentAccount := by
  rcases he : env.ethereum with _ | p
  · simp [addSepoliaNetwork, ethereumRequest, he]
  · rcases ha : p.addChain with e | u <;> simp [addSepoliaNetwork, ethereumRequest, he, ha]

theorem switchToSepolia_result (env : Env) (s : AppState) :
    (switchToSepolia env s).result = .ok () := by
  rcases he : env.ethereum with _ | p
  · simp only [switchToSepolia, ethereumRequest, he]
    split
    · cases (addSepoliaNetwork env s).result <;> rfl
    · rfl
  · rcases hs : p.switchChain with e | u
    · simp only [switchToSepolia, ethereumRequest, he, hs]
      split
      · cases (addSepoliaNetwork env s).result <;> rfl
      · rfl
    · simp [switchToSepolia, ethereumRequest, he, hs]

theorem switchToSepolia_account (env : Env) (s : AppState) :
    (switchToSepolia env s).state.isWalletConnected = s.isWalletConnected ∧
      (switchToSepolia env s).state.currentAccount = s.currentAccount := by
  have hadd := addSepoliaNetwork_account env s
  rcases he : env.ethereum with _ | p
  · simp only [switchToSepolia, ethereumRequest, he]
    split
    · cases (addSepoliaNetwork env s).result <;> exact hadd
    · exact ⟨rfl, rfl⟩
  · rcases hs : p.switchChain with e | u
    · simp only [switchToSepolia, ethereumRequest, he, hs]
      split
      · cases (addSepoliaNetwork env s).result <;> exact hadd
      · exact ⟨rfl, rfl⟩
    · simp [switchToSepolia, ethereumRequest, he, hs]

theorem checkNetwork_returns (env : Env) (s : AppState) :
    ∃ v, (checkNetwork env s).result = .ok v := by
  rcases he : env.ethereum with _ | p
  · simp [checkNetwork, ethereumRequest, he]
  · rcases hc : p.chainId with e | c
    · simp [checkNetwork, ethereumRequest, he, hc]
    · simp only [checkNetwork, ethereumRequest, he, hc, switchToSepolia_result]
      split
      · exact ⟨_, rfl⟩
      · split <;> exact ⟨_, rfl⟩

theorem checkNetwork_account (env : Env) (s : AppState) :
    (checkNetwork env s).state.isWalletConnected = s.isWalletConnected ∧
      (checkNetwork env s).state.currentAccount = s.currentAccount := by
  have hsw := switchToSepolia_account env s
  rcases he : env.ethereum with _ | p
  · simp [checkNetwork, ethereumRequest, he]
  · rcases hc : p.chainId with e | c
    · simp [checkNetwork, ethereumRequest, he, hc]
    · simp only [checkNetwork, ethereumRequest, he, hc, switchToSepolia_result]
      split
      · exact ⟨rfl, rfl⟩
      · split
        · exact hsw
        · exact ⟨rfl, rfl⟩

/-- In every reachable state a connected session has an account (the half of
the session invariant that the code keeps). -/
theorem reachable_connected_has_account {s : AppState} (h : Reachable s) :
    s.isWalletConnected = true → s.currentAccount ≠ none := by
  induction h with
  | init => simp [AppState.initial]
  | connect env hr ih =>
    rename_i s0
    intro hc
    by_cases hd : (detectMetaMask env).truthy = true
    · rcases he : env.ethereum with _ | p
      · simp [detectMetaMask, he, JsVal.truthy] at hd
      · rcases ha : p.requestAccounts with e | (_ | (_ | ⟨a, rest⟩))
        · simp [connectWallet, hd, ethereumRequest, he, ha, connectWalletCatch] at hc ⊢
          exact ih hc
        · simp [connectWallet, hd, ethereumRequest, he, ha, connectWalletCatch] at hc ⊢
          exact ih hc
        · simp [connectWallet, hd, ethereumRequest, he, ha, connectWalletCatch] at hc ⊢
          exact ih hc
        · obtain ⟨v, hv⟩ := checkNetwork_returns env
            { s0 with isWalletConnected := true, currentAccount := some a }
          have hacc := (checkNetwork_account env
            { s0 with isWalletConnected := true, currentAccount := some a }).2
          simp only [connectWallet, hd, ethereumRequest, he, ha, hv]
          simp [hacc]
    · simp [connectWallet, hd, connectWalletCatch] at hc ⊢
      exact ih hc
  | accountsChanged accounts hr ih =>
    cases accounts with
    | nil => simp [onAccountsChanged]
    | cons a rest => simp [onAccountsChanged]

/-! ## The claims -/

/-- C1 (code defect).  The `accountsChanged` listener, run in the initial
Disconnected state with the non-empty payload `["0xAbc"]`, records the account
but leaves `isWalletConnected` false: a reachable state in which the session
invariant (connected iff an account is recorded) fails. -/
theorem accountsChanged_while_disconnected :
    (onAccountsChanged ["0xAbc"] AppState.initial).1 = ⟨false, some "0xAbc", none⟩ ∧
      Reachable (onAccountsChanged ["0xAbc"] AppState.initial).1 ∧
      ¬ Consistent (onAccountsChanged ["0xAbc"] AppState.initial).1 := by
  refine ⟨rfl, Reachable.accountsChanged _ Reachable.init, ?_⟩
  simp [Consistent, onAccountsChanged, AppState.initial]

/-- C2.  When `connectWallet` fails before the commit step (no provider, provider
without a truthy `isMetaMask`, account request rejected with any fault, account
request resolving to a missing or empty collection) it returns `null`, leaves
the state exactly as it was, and, when detection fails (in particular when no
provider is injected), sends no provider request. -/
theorem connectWallet_failure_keeps_state (env : Env) (s : AppState)
    (h : env.ethereum = none ∨ (detectMetaMask env).truthy = false ∨
      (∃ p e, env.ethereum = some p ∧ p.requestAccounts = .error e) ∨
      (∃ p, env.ethereum = some p ∧
        (p.requestAccounts = .ok none ∨ p.requestAccounts = .ok (some [])))) :
    (connectWallet env s).result = .ok none ∧
      (connectWallet env s).state = s ∧
      (env.ethereum = none → requestsOf (connectWallet env s).effects = []) ∧
      ((detectMetaMask env).truthy = false →
        requestsOf (connectWallet env s).effects = []) := by
  by_cases hd : (detectMetaMask env).truthy = true
  · rcases he : env.ethereum with _ | p
    · simp [detectMetaMask, he, JsVal.truthy] at hd
    · rcases h with h | h | ⟨q, e, hq, hr⟩ | ⟨q, hq, hr | hr⟩
      · simp [he] at h
      · simp [hd] at h
      · rw [he] at hq
        cases hq
        simp [connectWallet, hd, ethereumRequest, he, hr, connectWalletCatch]
      · rw [he] at hq
        cases hq
        simp [connectWallet, hd, ethereumRequest, he, hr, connectWalletCatch]
      · rw [he] at hq
        cases hq
        simp [connectWallet, hd, ethereumRequest, he, hr, connectWalletCatch]
  · have hne : env.ethereum = none → (detectMetaMask env).truthy = false := by
      intro h0
      simp [detectMetaMask, h0, JsVal.truthy]
    simp [connectWallet, hd, connectWalletCatch, requestsOf]

/-- C2, instance: the user declines the account request (code 4001) while a
session is recorded. -/
theorem connectWallet_failure_keeps_state_witness :
    (connectWallet ⟨some decliningProvider, true⟩ verifiedSession).result = .ok none ∧
      (connectWallet ⟨some decliningProvider, true⟩ verifiedSession).state =
        verifiedSession :=
  have h := connectWallet_failure_keeps_state ⟨some decliningProvider, true⟩
    verifiedSession (Or.inr (Or.inr (Or.inl ⟨decliningProvider, userRejected, rfl, rfl⟩)))
  ⟨h.1, h.2.1⟩

/-- C3.  With a detected provider whose account request resolves to a non-empty
collection, `connectWallet` returns the first entry and ends with
`isWalletConnected = true` and `currentAccount` equal to that entry, whatever
the chain query, the confirmation, the switch request and the add request do. -/
theorem connectWallet_commits_first_account (env : Env) (s : AppState) (p : Provider)
    (a : String) (rest : List String) (he : env.ethereum = some p)
    (hd : (detectMetaMask env).truthy = true)
    (ha : p.requestAccounts = .ok (some (a :: rest))) :
    (connectWallet env s).result = .ok (some a) ∧
      (connectWallet env s).state.isWalletConnected = true ∧
      (connectWallet env s).state.currentAccount = some a := by
  obtain ⟨v, hv⟩ := checkNetwork_returns env
    { s with isWalletConnected := true, currentAccount := some a }
  have hacc := checkNetwork_account env
    { s with isWalletConnected := true, currentAccount := some a }
  simp only [connectWallet, hd, ethereumRequest, he, ha, hv]
  simp [hacc.1, hacc.2]

/-- C3, instance: the account is granted, the wallet sits on main net, the user
accepts the switch prompt and then declines the switch request. -/
theorem connectWallet_commits_first_account_witness :
    (connectWallet ⟨some mainnetProvider, true⟩ AppState.initial).result =
        .ok (some "0xAbc") ∧
      (connectWallet ⟨some mainnetProvider, true⟩ AppState.initial).state.isWalletConnected
        = true ∧
      (connectWallet ⟨some mainnetProvider, true⟩ AppState.initial).state.currentAccount
        = some "0xAbc" :=
  connectWallet_commits_first_account ⟨some mainnetProvider, true⟩ AppState.initial
    mainnetProvider "0xAbc" [] rfl rfl rfl

/-- C4.  When the chain query answers `0xaa36a7`, `checkNetwork` returns `true`,
records the network `Sepolia Testnet`, keeps `isWalletConnected` and
`currentAccount`, and its only effect is the chain query itself: no switch
request, no add-chain request, no confirmation prompt. -/
theorem checkNetwork_on_target (env : Env) (s : AppState) (p : Provider)
    (he : env.ethereum = some p) (hc : p.chainId = .ok "0xaa36a7") :
    (checkNetwork env s).result = .ok (some true) ∧
      (checkNetwork env s).state.currentNetwork = some "Sepolia Testnet" ∧
      (checkNetwork env s).state.isWalletConnected = s.isWalletConnected ∧
      (checkNetwork env s).state.currentAccount = s.currentAccount ∧
      (checkNetwork env s).effects = [.request .ethChainId] ∧
      switchChainRequests (checkNetwork env s).effects = [] ∧
      addChainRequests (checkNetwork env s).effects = [] ∧
      confirmPrompts (checkNetwork env s).effects = [] := by
  simp [checkNetwork, ethereumRequest, he, hc, switchChainRequests, addChainRequests,
    confirmPrompts]

/-- C4, instance: a connected session on a provider that is already on Sepolia. -/
theorem checkNetwork_on_target_witness :
    (checkNetwork ⟨some sepoliaProvider, true⟩ ⟨true, some "0xAbc", none⟩).result =
        .ok (some true) ∧
      (checkNetwork ⟨some sepoliaProvider, true⟩ ⟨true, some "0xAbc", none⟩).effects =
        [.request .ethChainId] :=
  have h := checkNetwork_on_target ⟨some sepoliaProvider, true⟩ ⟨true, some "0xAbc", none⟩
    sepoliaProvider rfl rfl
  ⟨h.1, h.2.2.2.2.1⟩

/-- C5.  In `switchToSepolia`, a switch request failing with code 4902 is followed
by exactly one `wallet_addEthereumChain` request, carrying the full Sepolia
parameters; a switch request that succeeds, or fails with any other fault, is
followed by none. -/
theorem switchToSepolia_add_requests (env : Env) (s : AppState) (p : Provider)
    (he : env.ethereum = some p) :
    (∀ e, p.switchChain = .error e → e.code = some 4902 →
        addChainRequests (switchToSepolia env s).effects =
          [{ chainId := "0xaa36a7", chainName := "Sepolia Testnet",
             nativeCurrency := { name := "Sepolia ETH", symbol := "SEP", decimals := 18 },
             rpcUrls := ["https://sepolia.infura.io/v3/"],
             blockExplorerUrls := ["https://sepolia.etherscan.io/"] }]) ∧
      (p.switchChain = .ok () →
        addChainRequests (switchToSepolia env s).effects = []) ∧
      (∀ e, p.switchChain = .error e → e.code ≠ some 4902 →
        addChainRequests (switchToSepolia env s).effects = []) := by
  refine ⟨?_, ?_, ?_⟩
  · intro e hs hcode
    rcases ha : p.addChain with e2 | u <;>
      simp [switchToSepolia, addSepoliaNetwork, ethereumRequest, he, hs, hcode, ha,
        addChainRequests, sepoliaParams]
  · intro hs
    simp [switchToSepolia, ethereumRequest, he, hs, addChainRequests]
  · intro e hs hcode
    simp [switchToSepolia, ethereumRequest, he, hs, hcode, addChainRequests]

/-- C5, instance: the provider does not know Sepolia (code 4902). -/
theorem switchToSepolia_add_requests_witness :
    addChainRequests (switchToSepolia ⟨some unknownChainProvider, true⟩
        AppState.initial).effects =
      [{ chainId := "0xaa36a7", chainName := "Sepolia Testnet",
         nativeCurrency := { name := "Sepolia ETH", symbol := "SEP", decimals := 18 },
         rpcUrls := ["https://sepolia.infura.io/v3/"],
         blockExplorerUrls := ["https://sepolia.etherscan.io/"] }] :=
  (switchToSepolia_add_requests ⟨some unknownChainProvider, true⟩ AppState.initial
    unknownChainProvider rfl).1 unknownChain rfl rfl

/-- C6.  Whatever the prior state, the `accountsChanged` listener run with an
empty payload leaves `isWalletConnected = false`, `currentAccount = null`,
`currentNetwork = null` and calls `showErrorMessage` exactly once. -/
theorem onAccountsChanged_empty (s : AppState) :
    (onAccountsChanged [] s).1 = ⟨false, none, none⟩ ∧
      errorMessages (onAccountsChanged [] s).2 =
        ["Wallet disconnected. Please reconnect to continue voting."] := by
  simp [onAccountsChanged, updateWalletDisplay, errorMessages]

/-- C7 (code defect).  With no provider injected, `detectMetaMask` returns
`undefined`, which is not a boolean, so Test 1 of `validateModule3` fails; the
same happens with a provider that has no `isMetaMask` property. -/
theorem detectMetaMask_returns_undefined :
    detectMetaMask ⟨none, false⟩ = JsVal.undefined ∧
      (detectMetaMask ⟨none, false⟩).typeof ≠ "boolean" ∧
      validateModule3Test1 ⟨none, false⟩ = false ∧
      validateModule3Test1
        ⟨some { sepoliaProvider with isMetaMask := JsVal.undefined }, false⟩ = false := by
  refine ⟨rfl, by decide, by decide, by decide⟩

/-- The truthiness of the value returned by `detectMetaMask`: truthy exactly when
a provider is injected and its `isMetaMask` property is truthy. -/
theorem detectMetaMask_truthy_iff (env : Env) :
    (detectMetaMask env).truthy = true ↔
      ∃ p, env.ethereum = some p ∧ p.isMetaMask.truthy = true := by
  rcases he : env.ethereum with _ | p <;> simp [detectMetaMask, he, JsVal.truthy]

/-- C8, counterexample.  The switch request is declined by the user (code 4001):
`switchToSepolia` completes normally instead of failing, although no network
has been established. -/
theorem switchToSepolia_swallows_failure :
    (switchToSepolia ⟨some mainnetProvider, true⟩ AppState.initial).result = .ok () ∧
      (switchToSepolia ⟨some mainnetProvider, true⟩ AppState.initial).state.currentNetwork
        = none :=
  ⟨rfl, rfl⟩

/-- C8, amended.  `switchToSepolia` never fails to its caller.  A switch request
failing with a code other than 4902, and a switch request failing with 4902
followed by a failing add request, are reported through `showErrorMessage`
(once, with the matching text) and leave the state unchanged; no error message
is shown exactly when the switch request, or the fallback add request,
succeeded, and then the network is recorded as `Sepolia Testnet`. -/
theorem switchToSepolia_reports_by_message (env : Env) (s : AppState) :
    (switchToSepolia env s).result = .ok () ∧
      ∀ p, env.ethereum = some p →
        (∀ e, p.switchChain = .error e → e.code ≠ some 4902 →
          (switchToSepolia env s).state = s ∧
          errorMessages (switchToSepolia env s).effects =
            ["Failed to switch network. Please switch manually in MetaMask."]) ∧
        (∀ e e2, p.switchChain = .error e → e.code = some 4902 →
          p.addChain = .error e2 →
          (switchToSepolia env s).state = s ∧
          errorMessages (switchToSepolia env s).effects =
            ["Failed to add Sepolia network. Please add it manually in MetaMask."]) ∧
        (errorMessages (switchToSepolia env s).effects = [] ↔
          (p.switchChain = .ok () ∨
            ∃ e, p.switchChain = .error e ∧ e.code = some 4902 ∧ p.addChain = .ok ())) ∧
        (errorMessages (switchToSepolia env s).effects = [] →
          (switchToSepolia env s).state.currentNetwork = some "Sepolia Testnet") := by
  refine ⟨switchToSepolia_result env s, ?_⟩
  intro p he
  rcases hs : p.switchChain with e | u
  · by_cases hcode : e.code = some 4902
    · rcases ha : p.addChain with e2 | u2 <;>
        simp [switchToSepolia, addSepoliaNetwork, ethereumRequest, he, hs, hcode, ha,
          errorMessages]
    · simp [switchToSepolia, ethereumRequest, he, hs, hcode, errorMessages]
      intro e1 e2 h1 h2
      subst h1
      exact absurd h2 hcode
  · simp [switchToSepolia, ethereumRequest, he, hs, errorMessages]

/-- C8, amended, instance: the provider does not know Sepolia and the user
refuses to add it. -/
theorem switchToSepolia_reports_by_message_witness :
    (switchToSepolia ⟨some unknownChainProvider, true⟩ verifiedSession).result = .ok () ∧
      (switchToSepolia ⟨some unknownChainProvider, true⟩ verifiedSession).state =
        verifiedSession ∧
      errorMessages (switchToSepolia ⟨some unknownChainProvider, true⟩
          verifiedSession).effects =
        ["Failed to add Sepolia network. Please add it manually in MetaMask."] :=
  have h := switchToSepolia_reports_by_message ⟨some unknownChainProvider, true⟩
    verifiedSession
  ⟨h.1, (h.2 unknownChainProvider rfl).2.1 unknownChain userRejected rfl rfl rfl⟩

/-- C9, counterexample.  A session that recorded `Sepolia Testnet` runs
`checkNetwork` while the provider reports chain `0x1` and the user declines the
prompt: the call returns `false`, yet the state still records
`Sepolia Testnet` as the current network. -/
theorem checkNetwork_declined_keeps_network :
    (checkNetwork ⟨some mainnetProvider, false⟩ verifiedSession).result =
        .ok (some false) ∧
      (checkNetwork ⟨some mainnetProvider, false⟩ verifiedSession).state.currentNetwork =
        some "Sepolia Testnet" :=
  ⟨rfl, rfl⟩

/-- C9, amended.  When the chain query answers an identifier other than
`0xaa36a7` and the confirmation is declined, `checkNetwork` returns `false`,
shows one error message, sends no switch or add request, and leaves the whole
state (`isWalletConnected`, `currentAccount`, `currentNetwork`) as it was. -/
theorem checkNetwork_declined (env : Env) (s : AppState) (p : Provider) (c : String)
    (he : env.ethereum = some p) (hc : p.chainId = .ok c) (hne : c ≠ "0xaa36a7")
    (hno : env.confirm = false) :
    (checkNetwork env s).result = .ok (some false) ∧
      (checkNetwork env s).state = s ∧
      (checkNetwork env s).effects =
        [.request .ethChainId, .confirm switchPrompt,
          .showErrorMessage "Please switch to Sepolia testnet to use this app."] := by
  simp [checkNetwork, ethereumRequest, he, hc, hne, hno]

/-- C9, amended, instance: chain `0x1`, prompt declined, from the initial state. -/
theorem checkNetwork_declined_witness :
    (checkNetwork ⟨some mainnetProvider, false⟩ AppState.initial).result =
        .ok (some false) ∧
      (checkNetwork ⟨some mainnetProvider, false⟩ AppState.initial).state =
        AppState.initial :=
  have h := checkNetwork_declined ⟨some mainnetProvider, false⟩ AppState.initial
    mainnetProvider "0x1" rfl rfl (by decide) rfl
  ⟨h.1, h.2.1⟩

/-- C10, counterexample.  The identifier `0xAA36A7` equals `0xaa36a7` up to letter
case, but `checkNetwork` takes the mismatch branch on it: it prompts for a
switch and, the prompt being declined, returns `false` without recording a
network. -/
theorem checkNetwork_upper_case_mismatch :
    lowerCase "0xAA36A7" = lowerCase "0xaa36a7" ∧
      (checkNetwork ⟨some upperCaseProvider, false⟩ AppState.initial).result =
        .ok (some false) ∧
      confirmPrompts (checkNetwork ⟨some upperCaseProvider, false⟩
          AppState.initial).effects = [switchPrompt] ∧
      (checkNetwork ⟨some upperCaseProvider, false⟩ AppState.initial).state.currentNetwork
        = none :=
  ⟨by decide, rfl, rfl, rfl⟩

/-- C10, amended.  `checkNetwork` compares the chain identifier with `0xaa36a7` by
exact, case-sensitive string equality: it returns `true` exactly when the
identifier is that very string, and every other identifier (one differing only
in letter case included) leads to the switch prompt. -/
theorem checkNetwork_exact_match (env : Env) (s : AppState) (p : Provider) (c : String)
    (he : env.ethereum = some p) (hc : p.chainId = .ok c) :
    ((checkNetwork env s).result = .ok (some true) ↔ c = "0xaa36a7") ∧
      (confirmPrompts (checkNetwork env s).effects = [] ↔ c = "0xaa36a7") ∧
      (c ≠ "0xaa36a7" → ∃ rest,
        (checkNetwork env s).effects =
          .request .ethChainId :: .confirm switchPrompt :: rest) := by
  by_cases hm : c = "0xaa36a7"
  · simp [checkNetwork, ethereumRequest, he, hc, hm, confirmPrompts]
  · by_cases hyes : env.confirm = true
    · simp [checkNetwork, ethereumRequest, he, hc, hm, hyes, switchToSepolia_result,
        confirmPrompts]
    · simp [checkNetwork, ethereumRequest, he, hc, hm, hyes, confirmPrompts]

/-- C10, amended, instance: the upper-case identifier, prompt accepted. -/
theorem checkNetwork_exact_match_witness :
    ∃ rest, (checkNetwork ⟨some upperCaseProvider, true⟩ AppState.initial).effects =
      .request .ethChainId :: .confirm switchPrompt :: rest :=
  (checkNetwork_exact_match ⟨some upperCaseProvider, true⟩ AppState.initial
    upperCaseProvider "0xAA36A7" rfl rfl).2.2 (by decide)

end Web3
